import Mathlib

/-!
Formal model of the pipeline-health-dashboard simulation core
(`src/pipeline/models.py`, `src/pipeline/simulation.py`,
`src/pipeline/pipeline_chain.py`, `src/pipeline/event_logger.py`),
shallowly embedded in Lean.  Python machine floats are modelled as
rationals, dict-backed state as explicit records, and in-place mutation
as state-passing.  A Python `assert` failure (an exception that escapes
the function) is modelled by returning `some err` together with the
state as mutated up to the point of failure.
-/

/-- Python `int(q)` on a real number: truncation toward zero.
(`Rat.floor` is the kernel-computable floor; `Rat.floor q = ⌊q⌋`.) -/
def pyInt (q : ℚ) : Int :=
  if 0 ≤ q then Rat.floor q else -(Rat.floor (-q))

/-- Bridge between the computable `Rat.floor` used in the model and the
`⌊·⌋` notation used in statements. -/
theorem ratFloor_eq_floor (q : ℚ) : Rat.floor q = ⌊q⌋ := by
  rw [Rat.floor_def', Rat.floor_def]

/-- For nonnegative arguments Python truncation agrees with the floor. -/
theorem pyInt_eq_floor_of_nonneg {q : ℚ} (h : 0 ≤ q) : pyInt q = ⌊q⌋ := by
  rw [pyInt, if_pos h, ratFloor_eq_floor]

/-- Keys of `SIGNAL_TYPE_DESCRIPTIONS` in `models.py` (the values are
documentation strings no code path reads, so only the key set is modelled). -/
def SIGNAL_TYPE_KEYS : List String :=
  ["sales_activity", "field_interaction", "market_signal"]

/-- `event.signal_type in SIGNAL_TYPE_DESCRIPTIONS` in Python: dict key membership. -/
def knownSignalType (s : String) : Bool :=
  SIGNAL_TYPE_KEYS.contains s

/-- `SignalEvent` dataclass in `models.py`. -/
structure SignalEvent where
  id : Int
  signal_type : String
  created_at : ℚ := 0
  ingestion_tick : Nat := 0
  deriving Repr, DecidableEq

/-- `StageMetrics` dataclass in `models.py`. -/
structure StageMetrics where
  processed : Nat := 0
  latencies_ms : List ℚ := []
  queue_depths : List Nat := []
  errors : Nat := 0
  e2e_processing_times : List Int := []
  deriving Repr, DecidableEq

/-- `StageMetrics.record_latency`. -/
def StageMetrics.record_latency (m : StageMetrics) (latency_ms : ℚ) : StageMetrics :=
  { m with latencies_ms := m.latencies_ms ++ [latency_ms] }

/-- `StageMetrics.record_e2e_processing_time`. -/
def StageMetrics.record_e2e_processing_time (m : StageMetrics) (t : Int) : StageMetrics :=
  { m with e2e_processing_times := m.e2e_processing_times ++ [t] }

/-- `Stage` dataclass in `models.py`.  The deque `queue` is a list with its
front at the head (`popleft` takes the head, `append` adds at the tail). -/
structure Stage where
  name : String
  capacity_per_tick : Nat
  base_latency_ms : ℚ
  jitter_ms : ℚ
  queue : List SignalEvent := []
  metrics : StageMetrics := {}
  slowdown_factor : ℚ := 1
  output_buffer : List SignalEvent := []
  deriving Repr, DecidableEq

/-- `Stage.enqueue`. -/
def Stage.enqueue (s : Stage) (event : SignalEvent) : Stage :=
  { s with queue := s.queue ++ [event] }

/-- `Stage.record_queue_depth`. -/
def Stage.record_queue_depth (s : Stage) : Stage :=
  { s with metrics :=
      { s.metrics with queue_depths := s.metrics.queue_depths ++ [s.queue.length] } }

/-- `compute_percentile` in `models.py`: `0.0` on an empty list, otherwise the
element at index `min(int(len*p), len-1)` of the ascending sort.  Python
`int()` truncates toward zero (`pyInt`); a negative final index (impossible
for `p ∈ [0,1]`) is mapped to `0` by `Int.toNat`, standing in for Python
negative indexing which the spec never exercises. -/
def compute_percentile (values : List ℚ) (percentile : ℚ) : ℚ :=
  if values = [] then 0
  else
    let sorted := values.insertionSort (· ≤ ·)
    let idx := min (pyInt ((values.length : ℚ) * percentile)) ((values.length : Int) - 1)
    sorted.getD idx.toNat 0

/-- The percentile routine as §4.4 of the spec words it: sort ascending and
take index `min(floor(len*p), len-1)`.  Kept separate from
`compute_percentile` so the refinement can be stated. -/
def percentile_spec (samples : List ℚ) (p : ℚ) : ℚ :=
  if samples = [] then 0
  else
    let sorted := samples.insertionSort (· ≤ ·)
    let idx := min (Int.toNat (Rat.floor ((samples.length : ℚ) * p))) (samples.length - 1)
    sorted.getD idx 0

/-- Global state of `event_logger.py`: the module-wide `LOG_EVENTS` flag and
the stream of messages written to the log file. -/
structure LogState where
  flag : Bool := true
  messages : List String := []
  deriving Repr, DecidableEq

/-- `set_event_logging` in `event_logger.py`. -/
def set_event_logging (enabled : Bool) (ls : LogState) : LogState :=
  { ls with flag := enabled }

/-- `log_event_enqueued` in `event_logger.py`: appends a message when the
module-wide flag is on, otherwise returns unchanged. -/
def log_event_enqueued (stage : Stage) (event : SignalEvent) (ls : LogState) : LogState :=
  if ls.flag then
    { ls with messages := ls.messages ++
        ["Event enqueued - Stage: " ++ stage.name ++ ", Event ID: " ++
          toString event.id ++ ", Signal Type: " ++ event.signal_type] }
  else ls

/-- `log_event_processed` in `event_logger.py`. -/
def log_event_processed (stage : Stage) (event : SignalEvent) (ls : LogState) : LogState :=
  if ls.flag then
    { ls with messages := ls.messages ++
        ["Event processed - Stage: " ++ stage.name ++ ", Event ID: " ++
          toString event.id ++ ", Signal Type: " ++ event.signal_type] }
  else ls

/-- The assertion failures `run_single_tick` can raise
(`simulation.py` lines 57, 101, 113). -/
inductive TickError where
  | unknown_signal_type (signal_type : String)
  | capacity_exceeded (processed effective_capacity : Nat)
  | queue_size_mismatch (expected got : Nat)
  deriving Repr, DecidableEq

/-- The drain loop of `run_single_tick` (`simulation.py` lines 73-98):
repeatedly pop the queue head, record a latency sample (`max 0` of the
uniform draw, supplied here as the stream `draws`), move the event to the
output buffer, record an end-to-end sample when the stage is named
`"store"` and both ticks are positive, and log.  `budget` is the remaining
effective capacity, `k` indexes the random draws; the returned `Nat` is the
number of events drained. -/
def drainLoop (current_tick : Nat) (draws : Nat → ℚ) :
    Nat → Nat → Stage → LogState → Stage × LogState × Nat
  | _, 0, stage, ls => (stage, ls, 0)
  | k, budget + 1, stage, ls =>
    match stage.queue with
    | [] => (stage, ls, 0)
    | event :: rest =>
      let latency_ms := max 0 (draws k)
      let stage1 := { stage with queue := rest }
      let stage2 := { stage1 with metrics := stage1.metrics.record_latency latency_ms }
      let stage3 := { stage2 with output_buffer := stage2.output_buffer ++ [event] }
      let e2e_ticks := (current_tick : Int) - (event.ingestion_tick : Int)
      let stage4 :=
        if stage3.name = "store" ∧ event.ingestion_tick > 0 ∧ current_tick > 0 then
          { stage3 with metrics := stage3.metrics.record_e2e_processing_time e2e_ticks }
        else stage3
      let ls1 := log_event_processed stage4 event ls
      let r := drainLoop current_tick draws (k + 1) budget stage4 ls1
      (r.1, r.2.1, r.2.2 + 1)

/-- `int(stage.capacity_per_tick / stage.slowdown_factor)`
(`simulation.py` line 68). -/
def effectiveCapacity (stage : Stage) : Nat :=
  (pyInt ((stage.capacity_per_tick : ℚ) / stage.slowdown_factor)).toNat

/-- The admission loop of `run_single_tick` (`simulation.py` lines 62-64):
`stage.enqueue(event); log_event_enqueued(stage, event)` for each incoming
event in order. -/
def enqueueAll (incoming_events : List SignalEvent) (stage : Stage) (ls : LogState) :
    Stage × LogState :=
  incoming_events.foldl
    (fun p e =>
      let s := p.1.enqueue e
      (s, log_event_enqueued s e p.2))
    (stage, ls)

/-- `run_single_tick` in `simulation.py`.  The Python function mutates
`stage` and the logger module in place and returns `None` or raises
`AssertionError`; here it returns the error (if any) together with the
state as mutated up to the failure point.  `draws` supplies the
`random.uniform` results in order. -/
def run_single_tick (stage : Stage) (incoming_events : List SignalEvent)
    (log_events : Bool) (enforce_queue_invariant : Bool) (current_tick : Nat)
    (draws : Nat → ℚ) (ls : LogState) :
    Option TickError × Stage × LogState :=
  let ls := set_event_logging log_events ls
  match incoming_events.find? (fun e => !(knownSignalType e.signal_type)) with
  | some bad => (some (.unknown_signal_type bad.signal_type), stage, ls)
  | none =>
    let p := enqueueAll incoming_events stage ls
    let stage := p.1.record_queue_depth
    let effective_capacity := effectiveCapacity stage
    let stage := { stage with output_buffer := [] }
    let r := drainLoop current_tick draws 0 effective_capacity stage p.2
    let stage := r.1
    let processed := r.2.2
    if processed ≤ effective_capacity then
      let stage := { stage with metrics :=
        { stage.metrics with processed := stage.metrics.processed + processed } }
      if enforce_queue_invariant then
        let expected_remaining := incoming_events.length - stage.capacity_per_tick
        if stage.queue.length = expected_remaining then (none, stage, r.2.1)
        else (some (.queue_size_mismatch expected_remaining stage.queue.length), stage, r.2.1)
      else (none, stage, r.2.1)
    else (some (.capacity_exceeded processed effective_capacity), stage, r.2.1)

/-- `StageChain` in `pipeline_chain.py`. -/
structure StageChain where
  stages : List Stage
  current_tick : Nat := 0
  deriving Repr, DecidableEq

/-- The unconditional ingestion-tick stamping loop of `StageChain.tick`
(`pipeline_chain.py` lines 25-26): `event.ingestion_tick = self.current_tick`
for every incoming event, with no already-stamped check. -/
def stampIngestionTick (current_tick : Nat) (events : List SignalEvent) : List SignalEvent :=
  events.map fun e => { e with ingestion_tick := current_tick }

/-- The per-stage loop of `StageChain.tick` (`pipeline_chain.py` lines
34-50): stage `i` runs on `stage_inputs`, then the input for stage `i+1`
is `prev_tick_outputs[i]` (the pre-tick snapshot) unless stage `i` is
last.  An assertion failure inside a stage aborts the remaining stages,
leaving them untouched. -/
def tickStages (current_tick : Nat) (drawsF : Nat → Nat → ℚ)
    (prev_tick_outputs : List (List SignalEvent)) :
    Nat → List Stage → List SignalEvent → LogState →
    Option TickError × List Stage × LogState
  | _, [], _, ls => (none, [], ls)
  | i, stage :: rest, stage_inputs, ls =>
    let r := run_single_tick stage stage_inputs false false current_tick (drawsF i) ls
    match r.1 with
    | some e => (some e, r.2.1 :: rest, r.2.2)
    | none =>
      let next_inputs := if rest.isEmpty then [] else prev_tick_outputs.getD i []
      let r2 := tickStages current_tick drawsF prev_tick_outputs (i + 1) rest next_inputs r.2.2
      (r2.1, r.2.1 :: r2.2.1, r2.2.2)

/-- `StageChain.tick` in `pipeline_chain.py`: advance `current_tick`, stamp
every incoming event with it, snapshot every output buffer, then advance
each stage in order with `log_events=False`, `enforce_queue_invariant=False`.
`drawsF i` is the latency-draw stream handed to stage `i`. -/
def StageChain.tick (chain : StageChain) (incoming_events : List SignalEvent)
    (drawsF : Nat → Nat → ℚ) (ls : LogState) :
    Option TickError × StageChain × LogState :=
  let current_tick := chain.current_tick + 1
  let stamped := stampIngestionTick current_tick incoming_events
  let prev_tick_outputs := chain.stages.map (·.output_buffer)
  let r := tickStages current_tick drawsF prev_tick_outputs 0 chain.stages stamped ls
  (r.1, { stages := r.2.1, current_tick := current_tick }, r.2.2)

/-! ### Helper lemmas about the admission loop -/

theorem enqueueAll_stage (incoming_events : List SignalEvent) :
    ∀ (stage : Stage) (ls : LogState),
      (enqueueAll incoming_events stage ls).1 =
        { stage with queue := stage.queue ++ incoming_events } := by
  induction incoming_events with
  | nil => intro stage ls; simp [enqueueAll]
  | cons e evs ih =>
    intro stage ls
    simp only [enqueueAll, List.foldl_cons] at *
    rw [ih]
    simp [Stage.enqueue]

theorem enqueueAll_flag (incoming_events : List SignalEvent) :
    ∀ (stage : Stage) (ls : LogState),
      (enqueueAll incoming_events stage ls).2.flag = ls.flag := by
  induction incoming_events with
  | nil => intro stage ls; simp [enqueueAll]
  | cons e evs ih =>
    intro stage ls
    simp only [enqueueAll, List.foldl_cons] at *
    rw [ih]
    simp [log_event_enqueued]
    split <;> simp

/-! ### Helper lemmas about the drain loop -/

theorem drainLoop_buffer_queue (current_tick : Nat) (draws : Nat → ℚ) :
    ∀ (budget k : Nat) (stage : Stage) (ls : LogState),
      (drainLoop current_tick draws k budget stage ls).1.output_buffer ++
        (drainLoop current_tick draws k budget stage ls).1.queue =
      stage.output_buffer ++ stage.queue := by
  intro budget
  induction budget with
  | zero => intro k stage ls; rfl
  | succ b ih =>
    intro k stage ls
    cases hq : stage.queue with
    | nil => simp [drainLoop, hq]
    | cons event rest =>
      simp only [drainLoop, hq]
      rw [ih]
      split <;> simp [hq, List.append_assoc]

theorem drainLoop_count_le (current_tick : Nat) (draws : Nat → ℚ) :
    ∀ (budget k : Nat) (stage : Stage) (ls : LogState),
      (drainLoop current_tick draws k budget stage ls).2.2 ≤ budget := by
  intro budget
  induction budget with
  | zero => intro k stage ls; simp [drainLoop]
  | succ b ih =>
    intro k stage ls
    cases hq : stage.queue with
    | nil => simp [drainLoop, hq]
    | cons event rest =>
      simp only [drainLoop, hq]
      exact Nat.succ_le_succ (ih _ _ _)

theorem drainLoop_buffer_length (current_tick : Nat) (draws : Nat → ℚ) :
    ∀ (budget k : Nat) (stage : Stage) (ls : LogState),
      (drainLoop current_tick draws k budget stage ls).1.output_buffer.length =
        stage.output_buffer.length +
          (drainLoop current_tick draws k budget stage ls).2.2 := by
  intro budget
  induction budget with
  | zero => intro k stage ls; rfl
  | succ b ih =>
    intro k stage ls
    cases hq : stage.queue with
    | nil => simp [drainLoop, hq]
    | cons event rest =>
      simp only [drainLoop, hq]
      rw [ih]
      split <;> simp <;> omega

theorem drainLoop_latencies_length (current_tick : Nat) (draws : Nat → ℚ) :
    ∀ (budget k : Nat) (stage : Stage) (ls : LogState),
      (drainLoop current_tick draws k budget stage ls).1.metrics.latencies_ms.length =
        stage.metrics.latencies_ms.length +
          (drainLoop current_tick draws k budget stage ls).2.2 := by
  intro budget
  induction budget with
  | zero => intro k stage ls; rfl
  | succ b ih =>
    intro k stage ls
    cases hq : stage.queue with
    | nil => simp [drainLoop, hq]
    | cons event rest =>
      simp only [drainLoop, hq]
      rw [ih]
      split <;> simp [StageMetrics.record_e2e_processing_time,
        StageMetrics.record_latency] <;> omega

theorem drainLoop_name (current_tick : Nat) (draws : Nat → ℚ) :
    ∀ (budget k : Nat) (stage : Stage) (ls : LogState),
      (drainLoop current_tick draws k budget stage ls).1.name = stage.name := by
  intro budget
  induction budget with
  | zero => intro k stage ls; rfl
  | succ b ih =>
    intro k stage ls
    cases hq : stage.queue with
    | nil => simp [drainLoop, hq]
    | cons event rest =>
      simp only [drainLoop, hq]
      rw [ih]
      split <;> simp

theorem drainLoop_processed_field (current_tick : Nat) (draws : Nat → ℚ) :
    ∀ (budget k : Nat) (stage : Stage) (ls : LogState),
      (drainLoop current_tick draws k budget stage ls).1.metrics.processed =
        stage.metrics.processed := by
  intro budget
  induction budget with
  | zero => intro k stage ls; rfl
  | succ b ih =>
    intro k stage ls
    cases hq : stage.queue with
    | nil => simp [drainLoop, hq]
    | cons event rest =>
      simp only [drainLoop, hq]
      rw [ih]
      split <;> simp [StageMetrics.record_e2e_processing_time, StageMetrics.record_latency]

theorem drainLoop_e2e_nonstore (current_tick : Nat) (draws : Nat → ℚ) :
    ∀ (budget k : Nat) (stage : Stage) (ls : LogState), stage.name ≠ "store" →
      (drainLoop current_tick draws k budget stage ls).1.metrics.e2e_processing_times =
        stage.metrics.e2e_processing_times := by
  intro budget
  induction budget with
  | zero => intro k stage ls _; rfl
  | succ b ih =>
    intro k stage ls hname
    cases hq : stage.queue with
    | nil => simp [drainLoop, hq]
    | cons event rest =>
      simp only [drainLoop, hq]
      rw [if_neg (by simp [hname])]
      rw [ih _ _ _ (by simpa using hname)]
      simp [StageMetrics.record_latency]

theorem drainLoop_stage_count_ignore_log (current_tick : Nat) (draws : Nat → ℚ) :
    ∀ (budget k : Nat) (stage : Stage) (ls ls' : LogState),
      (drainLoop current_tick draws k budget stage ls).1 =
        (drainLoop current_tick draws k budget stage ls').1 ∧
      (drainLoop current_tick draws k budget stage ls).2.2 =
        (drainLoop current_tick draws k budget stage ls').2.2 := by
  intro budget
  induction budget with
  | zero => intro k stage ls ls'; exact ⟨rfl, rfl⟩
  | succ b ih =>
    intro k stage ls ls'
    cases hq : stage.queue with
    | nil => simp [drainLoop, hq]
    | cons event rest =>
      simp only [drainLoop, hq]
      exact ⟨(ih _ _ _ _).1, by rw [(ih _ _ _ _).2]⟩

theorem drainLoop_flag (current_tick : Nat) (draws : Nat → ℚ) :
    ∀ (budget k : Nat) (stage : Stage) (ls : LogState),
      (drainLoop current_tick draws k budget stage ls).2.1.flag = ls.flag := by
  intro budget
  induction budget with
  | zero => intro k stage ls; rfl
  | succ b ih =>
    intro k stage ls
    cases hq : stage.queue with
    | nil => simp [drainLoop, hq]
    | cons event rest =>
      simp only [drainLoop, hq]
      rw [ih]
      simp [log_event_processed]
      split <;> simp

/-! ### Structure of a successful tick -/

theorem run_single_tick_state (stage : Stage) (evs : List SignalEvent) (le eqi : Bool)
    (ct : Nat) (draws : Nat → ℚ) (ls : LogState)
    (hvalid : evs.find? (fun e => !(knownSignalType e.signal_type)) = none) :
    (run_single_tick stage evs le eqi ct draws ls).2 =
      (let p := enqueueAll evs stage (set_event_logging le ls)
       let r := drainLoop ct draws 0 (effectiveCapacity p.1.record_queue_depth)
                  { p.1.record_queue_depth with output_buffer := [] } p.2
       ({ r.1 with metrics :=
            { r.1.metrics with processed := r.1.metrics.processed + r.2.2 } },
        r.2.1)) := by
  unfold run_single_tick
  rw [hvalid]
  simp only
  rw [if_pos (drainLoop_count_le _ _ _ _ _ _)]
  cases eqi
  · rw [if_neg (by simp)]
  · rw [if_pos rfl]
    split <;> rfl

/-! ### C6: percentile utility -/

/-- C6: `compute_percentile` with `p ∈ [0,1]` returns `0` on an empty sample
list and otherwise the element at index `min(floor(len*p), len-1)` of the
ascending sort (`percentile_spec`, worded from the spec); in particular
`compute_percentile [5] p = 5` for any `p ∈ [0,1]` and
`compute_percentile [1,2,3,4,5] (1/2) = 3`.  It is a pure function of its
arguments by construction (the Python code sorts a fresh list and never
mutates its input). -/
theorem percentile_nearest_rank (samples : List ℚ) (p : ℚ) (h0 : 0 ≤ p) (h1 : p ≤ 1) :
    compute_percentile samples p = percentile_spec samples p ∧
    compute_percentile [] p = 0 ∧
    compute_percentile [5] p = 5 ∧
    compute_percentile [1, 2, 3, 4, 5] (1/2) = 3 := by
  refine ⟨?_, by simp [compute_percentile], ?_, ?_⟩
  · rcases eq_or_ne samples [] with h | h
    · simp [compute_percentile, percentile_spec, h]
    · have hlen : 1 ≤ samples.length := List.length_pos.mpr h
      have hx : (0:ℚ) ≤ (samples.length : ℚ) * p := by positivity
      have hfl : 0 ≤ Rat.floor ((samples.length : ℚ) * p) := by
        rw [ratFloor_eq_floor]
        exact Int.floor_nonneg.mpr hx
      rw [compute_percentile, percentile_spec, if_neg h, if_neg h]
      simp only [pyInt, if_pos hx]
      congr 1
      omega
  · have hfl : 0 ≤ Rat.floor ((1 : ℚ) * p) := by
      rw [ratFloor_eq_floor]
      exact Int.floor_nonneg.mpr (by linarith)
    rw [compute_percentile, if_neg (by simp)]
    simp only [pyInt, List.length_singleton]
    rw [if_pos (by push_cast; linarith)]
    have : min (Rat.floor ((([5] : List ℚ).length : ℚ) * p)) ((([5] : List ℚ).length : Int) - 1) = 0 := by
      simp only [List.length_singleton]
      push_cast
      omega
    simp only [List.length_singleton] at this
    rw [this]
    simp [List.insertionSort]
  · rw [compute_percentile, if_neg (by simp)]
    norm_num [pyInt, Rat.floor_def']
    decide

/-- Witness for C6 at `p = 1/2` and `samples = [1, 2, 3]`. -/
theorem percentile_nearest_rank_witness :
    compute_percentile [1, 2, 3] (1/2) = percentile_spec [1, 2, 3] (1/2) ∧
    compute_percentile [] (1/2 : ℚ) = 0 ∧
    compute_percentile [5] (1/2 : ℚ) = 5 ∧
    compute_percentile [1, 2, 3, 4, 5] (1/2) = 3 :=
  percentile_nearest_rank [1, 2, 3] (1/2) (by norm_num) (by norm_num)

/-! ### C2: capacity bound -/

theorem effectiveCapacity_fields (s t : Stage)
    (hc : s.capacity_per_tick = t.capacity_per_tick)
    (hs : s.slowdown_factor = t.slowdown_factor) :
    effectiveCapacity s = effectiveCapacity t := by
  rw [effectiveCapacity, effectiveCapacity, hc, hs]

/-- C2: in every call to `run_single_tick` the number of events drained in
that tick (measured as the growth of the per-event latency list, to which
exactly one sample is appended per drained event) is at most
`floor(capacity_per_tick / slowdown_factor)`; and a stage with
`capacity_per_tick = 50` and `slowdown_factor = 2.5` has effective
capacity exactly `20`. -/
theorem tick_capacity_bound (stage : Stage) (incoming_events : List SignalEvent)
    (log_events enforce_queue_invariant : Bool) (current_tick : Nat)
    (draws : Nat → ℚ) (ls : LogState) (h : 0 < stage.slowdown_factor) :
    ((run_single_tick stage incoming_events log_events enforce_queue_invariant
        current_tick draws ls).2.1).metrics.latencies_ms.length ≤
      stage.metrics.latencies_ms.length +
        (⌊(stage.capacity_per_tick : ℚ) / stage.slowdown_factor⌋).toNat ∧
    effectiveCapacity { name := "degraded", capacity_per_tick := 50, base_latency_ms := 1,
                        jitter_ms := 0, queue := [], metrics := {}, slowdown_factor := 5/2,
                        output_buffer := [] } = 20 := by
  constructor
  · cases hf : incoming_events.find? (fun e => !(knownSignalType e.signal_type)) with
    | some bad =>
      unfold run_single_tick
      rw [hf]
      exact Nat.le_add_right _ _
    | none =>
      have hst := run_single_tick_state stage incoming_events log_events
        enforce_queue_invariant current_tick draws ls hf
      have h21 : (run_single_tick stage incoming_events log_events enforce_queue_invariant
          current_tick draws ls).2.1 =
        ((run_single_tick stage incoming_events log_events enforce_queue_invariant
          current_tick draws ls).2).1 := rfl
      rw [h21, hst]
      simp only
      rw [drainLoop_latencies_length]
      have hcap : effectiveCapacity
          (enqueueAll incoming_events stage (set_event_logging log_events ls)).1.record_queue_depth =
          effectiveCapacity stage := by
        apply effectiveCapacity_fields
        · rw [enqueueAll_stage]
          rfl
        · rw [enqueueAll_stage]
          rfl
      have hlat : ({ (enqueueAll incoming_events stage
            (set_event_logging log_events ls)).1.record_queue_depth with
            output_buffer := ([] : List SignalEvent) } : Stage).metrics.latencies_ms =
          stage.metrics.latencies_ms := by
        rw [enqueueAll_stage]
        rfl
      rw [hlat]
      have hfloor : effectiveCapacity stage =
          (⌊(stage.capacity_per_tick : ℚ) / stage.slowdown_factor⌋).toNat := by
        rw [effectiveCapacity, pyInt_eq_floor_of_nonneg]
        exact div_nonneg (by positivity) h.le
      refine Nat.add_le_add_left (le_trans (drainLoop_count_le _ _ _ _ _ _) ?_) _
      rw [hcap, hfloor]
  · rw [effectiveCapacity]
    norm_num [pyInt, Rat.floor_def']
    decide

/-- Witness for C2 at a concrete degraded stage (`capacity 50`,
`slowdown 5/2`) with no incoming events. -/
theorem tick_capacity_bound_witness :
    ((run_single_tick
        { name := "degraded", capacity_per_tick := 50, base_latency_ms := 1,
          jitter_ms := 0, queue := [], metrics := {}, slowdown_factor := 5/2,
          output_buffer := [] } [] false false 0 (fun _ => 0) {}).2.1).metrics.latencies_ms.length ≤ 20 ∧
    effectiveCapacity { name := "degraded", capacity_per_tick := 50, base_latency_ms := 1,
                        jitter_ms := 0, queue := [], metrics := {}, slowdown_factor := 5/2,
                        output_buffer := [] } = 20 := by
  have h := tick_capacity_bound
    { name := "degraded", capacity_per_tick := 50, base_latency_ms := 1,
      jitter_ms := 0, queue := [], metrics := {}, slowdown_factor := 5/2,
      output_buffer := [] } [] false false 0 (fun _ => 0) {} (by norm_num)
  refine ⟨?_, h.2⟩
  have h1 := h.1
  norm_num at h1
  exact h1

/-! ### C3: queue conservation and FIFO drain -/

/-- C3: whenever `run_single_tick` completes without error, the drained
events (collected in order in `output_buffer`) followed by the remaining
queue are exactly the pre-admission queue followed by the incoming events
— so draining removes events from the front in FIFO order — and
consequently the new queue length is (length before admission) +
|incoming| − (number drained), stated additively. -/
theorem tick_queue_conservation (stage : Stage) (incoming_events : List SignalEvent)
    (log_events enforce_queue_invariant : Bool) (current_tick : Nat)
    (draws : Nat → ℚ) (ls : LogState)
    (hok : (run_single_tick stage incoming_events log_events enforce_queue_invariant
      current_tick draws ls).1 = none) :
    ((run_single_tick stage incoming_events log_events enforce_queue_invariant
        current_tick draws ls).2.1).output_buffer ++
      ((run_single_tick stage incoming_events log_events enforce_queue_invariant
        current_tick draws ls).2.1).queue = stage.queue ++ incoming_events ∧
    ((run_single_tick stage incoming_events log_events enforce_queue_invariant
        current_tick draws ls).2.1).queue.length +
      ((run_single_tick stage incoming_events log_events enforce_queue_invariant
        current_tick draws ls).2.1).output_buffer.length =
      stage.queue.length + incoming_events.length := by
  cases hf : incoming_events.find? (fun e => !(knownSignalType e.signal_type)) with
  | some bad =>
    exfalso
    unfold run_single_tick at hok
    rw [hf] at hok
    exact Option.some_ne_none _ hok
  | none =>
    have hst := run_single_tick_state stage incoming_events log_events
      enforce_queue_invariant current_tick draws ls hf
    have h21 : (run_single_tick stage incoming_events log_events enforce_queue_invariant
        current_tick draws ls).2.1 =
      ((run_single_tick stage incoming_events log_events enforce_queue_invariant
        current_tick draws ls).2).1 := rfl
    have hmain :
        ((run_single_tick stage incoming_events log_events enforce_queue_invariant
          current_tick draws ls).2.1).output_buffer ++
        ((run_single_tick stage incoming_events log_events enforce_queue_invariant
          current_tick draws ls).2.1).queue = stage.queue ++ incoming_events := by
      rw [h21, hst]
      simp only
      rw [drainLoop_buffer_queue]
      rw [enqueueAll_stage]
      simp [Stage.record_queue_depth]
    refine ⟨hmain, ?_⟩
    have := congrArg List.length hmain
    simp only [List.length_append] at this
    omega

/-- Witness for C3: one valid event through an `ingest` stage whose queue
already holds one event; both are drained, in arrival order. -/
theorem tick_queue_conservation_witness :
    ((run_single_tick
        { name := "ingest", capacity_per_tick := 2, base_latency_ms := 1, jitter_ms := 0,
          queue := [{ id := 1, signal_type := "sales_activity" }], metrics := {},
          slowdown_factor := 1, output_buffer := [] }
        [{ id := 2, signal_type := "market_signal" }] true false 1 (fun _ => 0) {}).2.1).output_buffer ++
      ((run_single_tick
        { name := "ingest", capacity_per_tick := 2, base_latency_ms := 1, jitter_ms := 0,
          queue := [{ id := 1, signal_type := "sales_activity" }], metrics := {},
          slowdown_factor := 1, output_buffer := [] }
        [{ id := 2, signal_type := "market_signal" }] true false 1 (fun _ => 0) {}).2.1).queue =
      [{ id := 1, signal_type := "sales_activity" }, { id := 2, signal_type := "market_signal" }] := by
  have h := (tick_queue_conservation
    { name := "ingest", capacity_per_tick := 2, base_latency_ms := 1, jitter_ms := 0,
      queue := [{ id := 1, signal_type := "sales_activity" }], metrics := {},
      slowdown_factor := 1, output_buffer := [] }
    [{ id := 2, signal_type := "market_signal" }] true false 1 (fun _ => 0) {}
    (by simp [run_single_tick, enqueueAll, drainLoop, effectiveCapacity, pyInt,
      Rat.floor_def', knownSignalType, SIGNAL_TYPE_KEYS, set_event_logging,
      log_event_enqueued, log_event_processed, Stage.enqueue, Stage.record_queue_depth,
      StageMetrics.record_latency, StageMetrics.record_e2e_processing_time])).1
  simpa using h

/-! ### C4: validation gate -/

/-- C4: if any incoming event carries an unknown `signal_type`, the call
fails with the domain-validation error and the stage is returned exactly
as it was — queue, metrics and output buffer untouched — because the
validation loop runs before any mutation. -/
theorem tick_validation_gate (stage : Stage) (incoming_events : List SignalEvent)
    (log_events enforce_queue_invariant : Bool) (current_tick : Nat)
    (draws : Nat → ℚ) (ls : LogState) (e : SignalEvent) (he : e ∈ incoming_events)
    (hbad : knownSignalType e.signal_type = false) :
    (∃ s, (run_single_tick stage incoming_events log_events enforce_queue_invariant
        current_tick draws ls).1 = some (TickError.unknown_signal_type s)) ∧
    (run_single_tick stage incoming_events log_events enforce_queue_invariant
        current_tick draws ls).2.1 = stage := by
  have hsome : (incoming_events.find? (fun e => !(knownSignalType e.signal_type))).isSome := by
    rw [List.find?_isSome]
    exact ⟨e, he, by simp [hbad]⟩
  obtain ⟨bad, hf⟩ := Option.isSome_iff_exists.mp hsome
  unfold run_single_tick
  rw [hf]
  exact ⟨⟨bad.signal_type, rfl⟩, rfl⟩

/-- Witness for C4: one event with `signal_type = "invalid_signal"` leaves
a fresh ingest stage untouched and fails with the validation error. -/
theorem tick_validation_gate_witness :
    (∃ s, (run_single_tick
        { name := "ingest", capacity_per_tick := 100, base_latency_ms := 1, jitter_ms := 0,
          queue := [], metrics := {}, slowdown_factor := 1, output_buffer := [] }
        [{ id := 7, signal_type := "invalid_signal" }] true true 0 (fun _ => 0) {}).1 =
          some (TickError.unknown_signal_type s)) ∧
    (run_single_tick
        { name := "ingest", capacity_per_tick := 100, base_latency_ms := 1, jitter_ms := 0,
          queue := [], metrics := {}, slowdown_factor := 1, output_buffer := [] }
        [{ id := 7, signal_type := "invalid_signal" }] true true 0 (fun _ => 0) {}).2.1 =
      { name := "ingest", capacity_per_tick := 100, base_latency_ms := 1, jitter_ms := 0,
        queue := [], metrics := {}, slowdown_factor := 1, output_buffer := [] } :=
  tick_validation_gate _ _ true true 0 (fun _ => 0) {}
    { id := 7, signal_type := "invalid_signal" } (by simp)
    (by decide)

/-! ### C1: ingestion-tick stamping (corrected: stamping is unconditional) -/

/-- C1 counterexample: an event entering `StageChain.tick` with
`ingestion_tick = 5` (already stamped, non-zero) does NOT keep its stamp:
after the tick the event sits in the stage's output buffer restamped with
the new `current_tick = 1`, because `pipeline_chain.py` line 26 assigns
unconditionally. -/
theorem chain_restamp_counterexample :
    (([({ id := 1, signal_type := "sales_activity", created_at := 0, ingestion_tick := 5 } :
        SignalEvent)]).map (fun e => e.ingestion_tick) = [5]) ∧
    ((StageChain.tick
        { stages := [{ name := "ingest", capacity_per_tick := 1, base_latency_ms := 1,
                       jitter_ms := 0, queue := [], metrics := {}, slowdown_factor := 1,
                       output_buffer := [] }], current_tick := 0 }
        [{ id := 1, signal_type := "sales_activity", created_at := 0, ingestion_tick := 5 }]
        (fun _ _ => 0) {}).2.1.stages.getD 0
          { name := "dummy", capacity_per_tick := 0, base_latency_ms := 0, jitter_ms := 0,
            queue := [], metrics := {}, slowdown_factor := 1,
            output_buffer := [] }).output_buffer.map (fun e => e.ingestion_tick) = [1] := by
  constructor
  · rfl
  · simp [StageChain.tick, tickStages, stampIngestionTick, run_single_tick, enqueueAll,
      drainLoop, effectiveCapacity, pyInt, Rat.floor_def', knownSignalType,
      SIGNAL_TYPE_KEYS, set_event_logging, log_event_enqueued, log_event_processed,
      Stage.enqueue, Stage.record_queue_depth, StageMetrics.record_latency,
      StageMetrics.record_e2e_processing_time]

/-- C1 amended: `StageChain.tick` stamps EVERY incoming event with the new
`current_tick`, unconditionally — an event whose `ingestion_tick` is
already non-zero is overwritten rather than kept (`pipeline_chain.py`
line 26 has no not-yet-stamped guard). -/
theorem chain_stamp_unconditional (events : List SignalEvent) (t : Nat) (e : SignalEvent)
    (he : e ∈ stampIngestionTick t events) : e.ingestion_tick = t := by
  rw [stampIngestionTick] at he
  obtain ⟨x, _, rfl⟩ := List.mem_map.mp he
  rfl

/-- Witness for the amended C1 at tick 3 on a previously-stamped event. -/
theorem chain_stamp_unconditional_witness :
    ({ id := 1, signal_type := "sales_activity", created_at := 0, ingestion_tick := 3 } :
      SignalEvent).ingestion_tick = 3 :=
  chain_stamp_unconditional
    [{ id := 1, signal_type := "sales_activity", created_at := 0, ingestion_tick := 5 }] 3
    { id := 1, signal_type := "sales_activity", created_at := 0, ingestion_tick := 3 }
    (by simp [stampIngestionTick])

/-! ### C5: one-tick propagation delay -/

theorem run_single_tick_queue_mem (stage : Stage) (incoming_events : List SignalEvent)
    (log_events enforce_queue_invariant : Bool) (current_tick : Nat)
    (draws : Nat → ℚ) (ls : LogState) (e : SignalEvent)
    (he : e ∈ ((run_single_tick stage incoming_events log_events enforce_queue_invariant
      current_tick draws ls).2.1).queue) :
    e ∈ stage.queue ∨ e ∈ incoming_events := by
  cases hf : incoming_events.find? (fun e => !(knownSignalType e.signal_type)) with
  | some bad =>
    unfold run_single_tick at he
    rw [hf] at he
    exact Or.inl he
  | none =>
    have hst := run_single_tick_state stage incoming_events log_events
      enforce_queue_invariant current_tick draws ls hf
    have h21 : (run_single_tick stage incoming_events log_events enforce_queue_invariant
        current_tick draws ls).2.1 =
      ((run_single_tick stage incoming_events log_events enforce_queue_invariant
        current_tick draws ls).2).1 := rfl
    rw [h21, hst] at he
    simp only at he
    have hbq := drainLoop_buffer_queue current_tick draws
      (effectiveCapacity (enqueueAll incoming_events stage
        (set_event_logging log_events ls)).1.record_queue_depth) 0
      { (enqueueAll incoming_events stage
          (set_event_logging log_events ls)).1.record_queue_depth with
          output_buffer := ([] : List SignalEvent) }
      (enqueueAll incoming_events stage (set_event_logging log_events ls)).2
    have hmem : e ∈ stage.queue ++ incoming_events := by
      have : e ∈ (drainLoop current_tick draws 0
          (effectiveCapacity (enqueueAll incoming_events stage
            (set_event_logging log_events ls)).1.record_queue_depth)
          { (enqueueAll incoming_events stage
              (set_event_logging log_events ls)).1.record_queue_depth with
              output_buffer := ([] : List SignalEvent) }
          (enqueueAll incoming_events stage (set_event_logging log_events ls)).2).1.output_buffer ++
        (drainLoop current_tick draws 0
          (effectiveCapacity (enqueueAll incoming_events stage
            (set_event_logging log_events ls)).1.record_queue_depth)
          { (enqueueAll incoming_events stage
              (set_event_logging log_events ls)).1.record_queue_depth with
              output_buffer := ([] : List SignalEvent) }
          (enqueueAll incoming_events stage (set_event_logging log_events ls)).2).1.queue := by
        exact List.mem_append_right _ he
      rw [hbq] at this
      rw [enqueueAll_stage] at this
      simpa [Stage.record_queue_depth] using this
    exact List.mem_append.mp hmem

/-- C5: in a chain of two or more stages, an event that is not already in
stage 2's queue nor in stage 1's end-of-previous-tick output buffer — in
particular any fresh event supplied to `StageChain.tick` this tick — cannot
be in stage 2's queue after this chain tick: stage 2's input this tick is
exactly stage 1's output buffer as snapshotted before processing, so even
if stage 1 drains the new event this tick it only reaches stage 2's input
one tick later. -/
theorem chain_propagation_delay (s1 s2 : Stage) (rest : List Stage) (ct : Nat)
    (incoming_events : List SignalEvent) (drawsF : Nat → Nat → ℚ) (ls : LogState)
    (e : SignalEvent) (h1 : e ∉ s2.queue) (h2 : e ∉ s1.output_buffer) :
    e ∉ ((StageChain.tick { stages := s1 :: s2 :: rest, current_tick := ct }
        incoming_events drawsF ls).2.1.stages.getD 1 s2).queue := by
  intro hmem
  simp only [StageChain.tick, tickStages] at hmem
  cases hA : (run_single_tick s1 (stampIngestionTick (ct + 1) incoming_events)
      false false (ct + 1) (drawsF 0) ls).1 with
  | some err =>
    rw [hA] at hmem
    simp only [List.getD_cons_succ, List.getD_cons_zero] at hmem
    exact h1 hmem
  | none =>
    rw [hA] at hmem
    simp only [List.isEmpty_cons, List.map_cons, List.getD_cons_zero,
      Bool.false_eq_true, if_false] at hmem
    cases hB : (run_single_tick s2 s1.output_buffer false false (ct + 1) (drawsF 1)
        (run_single_tick s1 (stampIngestionTick (ct + 1) incoming_events)
          false false (ct + 1) (drawsF 0) ls).2.2).1 with
    | some err2 =>
      rw [hB] at hmem
      simp only [List.getD_cons_succ, List.getD_cons_zero] at hmem
      rcases run_single_tick_queue_mem s2 s1.output_buffer false false (ct + 1) (drawsF 1)
        (run_single_tick s1 (stampIngestionTick (ct + 1) incoming_events)
          false false (ct + 1) (drawsF 0) ls).2.2 e hmem with h | h
      · exact h1 h
      · exact h2 h
    | none =>
      rw [hB] at hmem
      simp only [List.getD_cons_succ, List.getD_cons_zero] at hmem
      rcases run_single_tick_queue_mem s2 s1.output_buffer false false (ct + 1) (drawsF 1)
        (run_single_tick s1 (stampIngestionTick (ct + 1) incoming_events)
          false false (ct + 1) (drawsF 0) ls).2.2 e hmem with h | h
      · exact h1 h
      · exact h2 h

/-- Witness for C5: a fresh event (stamped `1` this tick) is absent from
stage 2's queue after the first chain tick of a 2-stage chain. -/
theorem chain_propagation_delay_witness :
    ({ id := 1, signal_type := "sales_activity", created_at := 0, ingestion_tick := 1 } :
      SignalEvent) ∉
      ((StageChain.tick
          { stages :=
              [{ name := "ingest", capacity_per_tick := 1, base_latency_ms := 1, jitter_ms := 0,
                 queue := [], metrics := {}, slowdown_factor := 1, output_buffer := [] },
               { name := "normalize", capacity_per_tick := 1, base_latency_ms := 1, jitter_ms := 0,
                 queue := [], metrics := {}, slowdown_factor := 1, output_buffer := [] }],
            current_tick := 0 }
          [{ id := 1, signal_type := "sales_activity", created_at := 0, ingestion_tick := 0 }]
          (fun _ _ => 0) {}).2.1.stages.getD 1
            { name := "normalize", capacity_per_tick := 1, base_latency_ms := 1, jitter_ms := 0,
              queue := [], metrics := {}, slowdown_factor := 1, output_buffer := [] }).queue :=
  chain_propagation_delay
    { name := "ingest", capacity_per_tick := 1, base_latency_ms := 1, jitter_ms := 0,
      queue := [], metrics := {}, slowdown_factor := 1, output_buffer := [] }
    { name := "normalize", capacity_per_tick := 1, base_latency_ms := 1, jitter_ms := 0,
      queue := [], metrics := {}, slowdown_factor := 1, output_buffer := [] }
    [] 0
    [{ id := 1, signal_type := "sales_activity", created_at := 0, ingestion_tick := 0 }]
    (fun _ _ => 0) {}
    { id := 1, signal_type := "sales_activity", created_at := 0, ingestion_tick := 1 }
    (by simp) (by simp)

/-! ### C7: end-to-end samples and the terminal stage (corrected: detection
is by the name "store", not by chain position) -/

/-- Exact characterization of the drain loop's end-to-end recording
(`simulation.py` lines 92-94): the e2e list after the loop is the old list
extended by one entry `current_tick - ingestion_tick` for each drained
event (a prefix of the queue, in drain order) that satisfies
`name = "store" ∧ ingestion_tick > 0 ∧ current_tick > 0`, and by nothing
else — in particular nothing is recorded at `current_tick = 0`, for
unstamped events, or by stages not named `"store"`. -/
theorem drainLoop_e2e_exact (current_tick : Nat) (draws : Nat → ℚ) :
    ∀ (budget k : Nat) (stage : Stage) (ls : LogState),
      (drainLoop current_tick draws k budget stage ls).1.metrics.e2e_processing_times =
        stage.metrics.e2e_processing_times ++
          ((stage.queue.take (drainLoop current_tick draws k budget stage ls).2.2).filter
            (fun ev => decide (stage.name = "store" ∧
              0 < ev.ingestion_tick ∧ 0 < current_tick))).map
            (fun ev => (current_tick : Int) - (ev.ingestion_tick : Int)) := by
  intro budget
  induction budget with
  | zero => intro k stage ls; simp [drainLoop]
  | succ b ih =>
    intro k stage ls
    cases hq : stage.queue with
    | nil => simp [drainLoop, hq]
    | cons event rest =>
      simp only [drainLoop, hq]
      by_cases hcond : stage.name = "store" ∧ 0 < event.ingestion_tick ∧ 0 < current_tick
      · rw [if_pos (by simpa using hcond)]
        rw [ih]
        simp [StageMetrics.record_latency, StageMetrics.record_e2e_processing_time,
          List.take_succ_cons, List.filter_cons, hcond.1, hcond.2.1, hcond.2.2]
      · rw [if_neg (by simpa using hcond)]
        rw [ih]
        simp only [StageMetrics.record_latency, List.take_succ_cons, List.filter_cons]
        rw [decide_eq_false hcond]
        simp

/-- C7 counterexample: in the chain `[store, sink]` the stage named
`"store"` is NOT the terminal stage (the chain has two stages and `store`
is first), yet after one tick with one valid event it has recorded an
end-to-end sample — `run_single_tick` detects the "terminal" stage purely
by the name `"store"` (`simulation.py` line 92), not by chain position, so
the claim that only the chain's terminal stage records e2e samples is
false. -/
theorem e2e_nonterminal_counterexample :
    ((StageChain.tick
        { stages :=
            [{ name := "store", capacity_per_tick := 1, base_latency_ms := 1, jitter_ms := 0,
               queue := [], metrics := {}, slowdown_factor := 1, output_buffer := [] },
             { name := "sink", capacity_per_tick := 1, base_latency_ms := 1, jitter_ms := 0,
               queue := [], metrics := {}, slowdown_factor := 1, output_buffer := [] }],
          current_tick := 0 }
        [{ id := 1, signal_type := "sales_activity", created_at := 0, ingestion_tick := 0 }]
        (fun _ _ => 0) {}).2.1.stages.getD 0
          { name := "dummy", capacity_per_tick := 0, base_latency_ms := 0, jitter_ms := 0,
            queue := [], metrics := {}, slowdown_factor := 1,
            output_buffer := [] }).metrics.e2e_processing_times = [0] ∧
    (StageChain.tick
        { stages :=
            [{ name := "store", capacity_per_tick := 1, base_latency_ms := 1, jitter_ms := 0,
               queue := [], metrics := {}, slowdown_factor := 1, output_buffer := [] },
             { name := "sink", capacity_per_tick := 1, base_latency_ms := 1, jitter_ms := 0,
               queue := [], metrics := {}, slowdown_factor := 1, output_buffer := [] }],
          current_tick := 0 }
        [{ id := 1, signal_type := "sales_activity", created_at := 0, ingestion_tick := 0 }]
        (fun _ _ => 0) {}).2.1.stages.length = 2 := by
  constructor <;>
    simp [StageChain.tick, tickStages, stampIngestionTick, run_single_tick, enqueueAll,
      drainLoop, effectiveCapacity, pyInt, Rat.floor_def', knownSignalType,
      SIGNAL_TYPE_KEYS, set_event_logging, log_event_enqueued, log_event_processed,
      Stage.enqueue, Stage.record_queue_depth, StageMetrics.record_latency,
      StageMetrics.record_e2e_processing_time]

theorem drainLoop_output_take (current_tick : Nat) (draws : Nat → ℚ)
    (budget k : Nat) (stage : Stage) (ls : LogState) (h : stage.output_buffer = []) :
    (drainLoop current_tick draws k budget stage ls).1.output_buffer =
      stage.queue.take (drainLoop current_tick draws k budget stage ls).2.2 := by
  have hbq := drainLoop_buffer_queue current_tick draws budget k stage ls
  have hlen := drainLoop_buffer_length current_tick draws budget k stage ls
  rw [h] at hbq hlen
  simp only [List.nil_append] at hbq
  simp only [List.length_nil, Nat.zero_add] at hlen
  conv_lhs =>
    rw [← List.take_left
      ((drainLoop current_tick draws k budget stage ls).1.output_buffer)
      ((drainLoop current_tick draws k budget stage ls).1.queue)]
  rw [hbq, hlen]

/-- C7 amended: `run_single_tick` records end-to-end samples based on the
stage NAME, not on chain position.  On every call whose events pass
validation, the e2e list after the tick is the old list extended by the
entry `current_tick - ingestion_tick` for exactly those drained events
(collected in order in `output_buffer`) satisfying
`stage.name = "store" ∧ ingestion_tick > 0 ∧ current_tick > 0`, and by
nothing else: a stage not named `"store"`, a run at `current_tick = 0`,
or an unstamped event contributes no entry, wherever the stage sits in
the chain. -/
theorem e2e_recorded_iff_store_named (stage : Stage) (incoming_events : List SignalEvent)
    (log_events enforce_queue_invariant : Bool) (current_tick : Nat)
    (draws : Nat → ℚ) (ls : LogState)
    (hvalid : incoming_events.find? (fun e => !(knownSignalType e.signal_type)) = none) :
    ((run_single_tick stage incoming_events log_events enforce_queue_invariant
        current_tick draws ls).2.1).metrics.e2e_processing_times =
      stage.metrics.e2e_processing_times ++
        ((((run_single_tick stage incoming_events log_events enforce_queue_invariant
            current_tick draws ls).2.1).output_buffer).filter
          (fun ev => decide (stage.name = "store" ∧
            0 < ev.ingestion_tick ∧ 0 < current_tick))).map
          (fun ev => (current_tick : Int) - (ev.ingestion_tick : Int)) := by
  have hst := run_single_tick_state stage incoming_events log_events
    enforce_queue_invariant current_tick draws ls hvalid
  have h21 : (run_single_tick stage incoming_events log_events enforce_queue_invariant
      current_tick draws ls).2.1 =
    ((run_single_tick stage incoming_events log_events enforce_queue_invariant
      current_tick draws ls).2).1 := rfl
  rw [h21, hst]
  simp only
  rw [drainLoop_output_take current_tick draws
    (effectiveCapacity (enqueueAll incoming_events stage
      (set_event_logging log_events ls)).1.record_queue_depth) 0
    { (enqueueAll incoming_events stage
        (set_event_logging log_events ls)).1.record_queue_depth with
        output_buffer := ([] : List SignalEvent) }
    (enqueueAll incoming_events stage (set_event_logging log_events ls)).2 rfl]
  rw [drainLoop_e2e_exact]
  rw [enqueueAll_stage]
  simp [Stage.record_queue_depth]

/-- Witness for the amended C7: a stage named `ingest` records no e2e
sample, and a stage named `store` fed one stamped event at tick 3 records
one sample per drained event. -/
theorem e2e_recorded_iff_store_named_witness :
    ((run_single_tick
        { name := "store", capacity_per_tick := 1, base_latency_ms := 1, jitter_ms := 0,
          queue := [], metrics := {}, slowdown_factor := 1, output_buffer := [] }
        [{ id := 1, signal_type := "sales_activity", created_at := 0, ingestion_tick := 2 }]
        true false 3 (fun _ => 0) {}).2.1).metrics.e2e_processing_times =
      ({ name := "store", capacity_per_tick := 1, base_latency_ms := 1, jitter_ms := 0,
         queue := [], metrics := {}, slowdown_factor := 1, output_buffer := [] } :
        Stage).metrics.e2e_processing_times ++
        ((((run_single_tick
            { name := "store", capacity_per_tick := 1, base_latency_ms := 1, jitter_ms := 0,
              queue := [], metrics := {}, slowdown_factor := 1, output_buffer := [] }
            [{ id := 1, signal_type := "sales_activity", created_at := 0, ingestion_tick := 2 }]
            true false 3 (fun _ => 0) {}).2.1).output_buffer).filter
          (fun ev => decide
            (({ name := "store", capacity_per_tick := 1, base_latency_ms := 1,
                jitter_ms := 0, queue := [], metrics := {}, slowdown_factor := 1,
                output_buffer := [] } : Stage).name = "store" ∧
              0 < ev.ingestion_tick ∧ 0 < 3))).map
          (fun ev => ((3 : Nat) : Int) - (ev.ingestion_tick : Int)) :=
  e2e_recorded_iff_store_named
    { name := "store", capacity_per_tick := 1, base_latency_ms := 1, jitter_ms := 0,
      queue := [], metrics := {}, slowdown_factor := 1, output_buffer := [] }
    [{ id := 1, signal_type := "sales_activity", created_at := 0, ingestion_tick := 2 }]
    true false 3 (fun _ => 0) {} (by decide)

/-! ### C8: logging neutrality -/

theorem run_single_tick_err (stage : Stage) (evs : List SignalEvent) (le eqi : Bool)
    (ct : Nat) (draws : Nat → ℚ) (ls : LogState)
    (hvalid : evs.find? (fun e => !(knownSignalType e.signal_type)) = none) :
    (run_single_tick stage evs le eqi ct draws ls).1 =
      (let p := enqueueAll evs stage (set_event_logging le ls)
       let r := drainLoop ct draws 0 (effectiveCapacity p.1.record_queue_depth)
                  { p.1.record_queue_depth with output_buffer := [] } p.2
       if eqi then
         if r.1.queue.length = evs.length - r.1.capacity_per_tick then none
         else some (TickError.queue_size_mismatch
           (evs.length - r.1.capacity_per_tick) r.1.queue.length)
       else none) := by
  unfold run_single_tick
  rw [hvalid]
  simp only
  rw [if_pos (drainLoop_count_le _ _ _ _ _ _)]
  cases eqi
  · rw [if_neg (by simp), if_neg (by simp)]
  · rw [if_pos rfl, if_pos rfl]
    split <;> rfl

/-- C8: toggling the logging flag never changes core outcomes.  For the
same stage, the same incoming events and the same random draw stream,
`run_single_tick` with `log_events = True` and with `log_events = False`
(from arbitrary, even different, ambient logging states) returns the same
error status and the same stage — hence the same processed count, queue
contents, queue-depth samples and latency sequence. -/
theorem logging_neutrality (stage : Stage) (incoming_events : List SignalEvent)
    (enforce_queue_invariant : Bool) (current_tick : Nat)
    (draws : Nat → ℚ) (ls ls' : LogState) :
    (run_single_tick stage incoming_events true enforce_queue_invariant
        current_tick draws ls).1 =
      (run_single_tick stage incoming_events false enforce_queue_invariant
        current_tick draws ls').1 ∧
    (run_single_tick stage incoming_events true enforce_queue_invariant
        current_tick draws ls).2.1 =
      (run_single_tick stage incoming_events false enforce_queue_invariant
        current_tick draws ls').2.1 := by
  cases hf : incoming_events.find? (fun e => !(knownSignalType e.signal_type)) with
  | some bad =>
    constructor
    · unfold run_single_tick
      rw [hf]
    · unfold run_single_tick
      rw [hf]
  | none =>
    have hstage : (enqueueAll incoming_events stage (set_event_logging true ls)).1 =
        (enqueueAll incoming_events stage (set_event_logging false ls')).1 := by
      rw [enqueueAll_stage, enqueueAll_stage]
    constructor
    · rw [run_single_tick_err stage incoming_events true enforce_queue_invariant
          current_tick draws ls hf,
        run_single_tick_err stage incoming_events false enforce_queue_invariant
          current_tick draws ls' hf]
      simp only
      rw [hstage]
      obtain ⟨hs, hn⟩ := drainLoop_stage_count_ignore_log current_tick draws
        (effectiveCapacity (enqueueAll incoming_events stage
          (set_event_logging false ls')).1.record_queue_depth) 0
        { (enqueueAll incoming_events stage
            (set_event_logging false ls')).1.record_queue_depth with
            output_buffer := ([] : List SignalEvent) }
        (enqueueAll incoming_events stage (set_event_logging true ls)).2
        (enqueueAll incoming_events stage (set_event_logging false ls')).2
      rw [hs]
    · have h21t : (run_single_tick stage incoming_events true enforce_queue_invariant
          current_tick draws ls).2.1 =
        ((run_single_tick stage incoming_events true enforce_queue_invariant
          current_tick draws ls).2).1 := rfl
      have h21f : (run_single_tick stage incoming_events false enforce_queue_invariant
          current_tick draws ls').2.1 =
        ((run_single_tick stage incoming_events false enforce_queue_invariant
          current_tick draws ls').2).1 := rfl
      rw [h21t, run_single_tick_state stage incoming_events true enforce_queue_invariant
          current_tick draws ls hf,
        h21f, run_single_tick_state stage incoming_events false enforce_queue_invariant
          current_tick draws ls' hf]
      simp only
      rw [hstage]
      obtain ⟨hs, hn⟩ := drainLoop_stage_count_ignore_log current_tick draws
        (effectiveCapacity (enqueueAll incoming_events stage
          (set_event_logging false ls')).1.record_queue_depth) 0
        { (enqueueAll incoming_events stage
            (set_event_logging false ls')).1.record_queue_depth with
            output_buffer := ([] : List SignalEvent) }
        (enqueueAll incoming_events stage (set_event_logging true ls)).2
        (enqueueAll incoming_events stage (set_event_logging false ls')).2
      rw [hs, hn]

/-! ### C9: the default queue-invariant assertion is unsound for
non-empty starting queues -/

/-- C9: with `enforce_queue_invariant = True` (the default),
`run_single_tick` compares the post-drain queue length against
`max(0, |incoming| - capacity_per_tick)`, which presumes an empty starting
queue.  Concretely: a stage with `capacity_per_tick = 1`,
`slowdown_factor = 1` and one event already queued, fed one valid event,
drains the old event and keeps the new one — the spec's queue-conservation
law holds (`output_buffer ++ queue` is exactly the admitted sequence) —
yet the call fails with the fatal `queue_size_mismatch 0 1` assertion. -/
theorem queue_invariant_assertion_unsound :
    (run_single_tick
        { name := "ingest", capacity_per_tick := 1, base_latency_ms := 1, jitter_ms := 0,
          queue := [{ id := 1, signal_type := "sales_activity" }], metrics := {},
          slowdown_factor := 1, output_buffer := [] }
        [{ id := 2, signal_type := "market_signal" }] true true 1 (fun _ => 0) {}).1 =
      some (TickError.queue_size_mismatch 0 1) ∧
    ((run_single_tick
        { name := "ingest", capacity_per_tick := 1, base_latency_ms := 1, jitter_ms := 0,
          queue := [{ id := 1, signal_type := "sales_activity" }], metrics := {},
          slowdown_factor := 1, output_buffer := [] }
        [{ id := 2, signal_type := "market_signal" }] true true 1 (fun _ => 0) {}).2.1).output_buffer =
      [{ id := 1, signal_type := "sales_activity" }] ∧
    ((run_single_tick
        { name := "ingest", capacity_per_tick := 1, base_latency_ms := 1, jitter_ms := 0,
          queue := [{ id := 1, signal_type := "sales_activity" }], metrics := {},
          slowdown_factor := 1, output_buffer := [] }
        [{ id := 2, signal_type := "market_signal" }] true true 1 (fun _ => 0) {}).2.1).queue =
      [{ id := 2, signal_type := "market_signal" }] := by
  refine ⟨?_, ?_, ?_⟩ <;>
    simp [run_single_tick, enqueueAll, drainLoop, effectiveCapacity, pyInt,
      Rat.floor_def', knownSignalType, SIGNAL_TYPE_KEYS, set_event_logging,
      log_event_enqueued, log_event_processed, Stage.enqueue, Stage.record_queue_depth,
      StageMetrics.record_latency, StageMetrics.record_e2e_processing_time]

/-! ### C10: the module-wide logging flag is overwritten on every call -/

theorem run_single_tick_flag (stage : Stage) (evs : List SignalEvent) (le eqi : Bool)
    (ct : Nat) (draws : Nat → ℚ) (ls : LogState) :
    ((run_single_tick stage evs le eqi ct draws ls).2.2).flag = le := by
  cases hf : evs.find? (fun e => !(knownSignalType e.signal_type)) with
  | some bad =>
    unfold run_single_tick
    rw [hf]
    simp [set_event_logging]
  | none =>
    have h22 : (run_single_tick stage evs le eqi ct draws ls).2.2 =
      ((run_single_tick stage evs le eqi ct draws ls).2).2 := rfl
    rw [h22, run_single_tick_state stage evs le eqi ct draws ls hf]
    simp only
    rw [drainLoop_flag, enqueueAll_flag]
    rfl

theorem tickStages_flag (ct : Nat) (drawsF : Nat → Nat → ℚ)
    (prevOuts : List (List SignalEvent)) :
    ∀ (stages : List Stage) (i : Nat) (inputs : List SignalEvent) (ls : LogState),
      stages ≠ [] →
      ((tickStages ct drawsF prevOuts i stages inputs ls).2.2).flag = false := by
  intro stages
  induction stages with
  | nil => intro i inputs ls h; exact absurd rfl h
  | cons stage rest ih =>
    intro i inputs ls _
    simp only [tickStages]
    cases hr : (run_single_tick stage inputs false false ct (drawsF i) ls).1 with
    | some err =>
      exact run_single_tick_flag _ _ _ _ _ _ _
    | none =>
      cases hrest : rest with
      | nil =>
        subst hrest
        exact run_single_tick_flag _ _ _ _ _ _ _
      | cons s2 rest2 =>
        subst hrest
        exact ih i.succ _ _ (by simp)

/-- C10: `run_single_tick` unconditionally overwrites the module-wide
`LOG_EVENTS` flag with its `log_events` argument before doing anything
else, and `StageChain.tick` always calls it with `log_events = False`, so
after any chain tick over a non-empty stage list the process-wide flag is
`False` — silently overriding whatever logging setting was in effect. -/
theorem logging_flag_side_effect :
    (∀ (stage : Stage) (evs : List SignalEvent) (le eqi : Bool) (ct : Nat)
        (draws : Nat → ℚ) (ls : LogState),
      ((run_single_tick stage evs le eqi ct draws ls).2.2).flag = le) ∧
    (∀ (chain : StageChain) (evs : List SignalEvent) (drawsF : Nat → Nat → ℚ)
        (ls : LogState), chain.stages ≠ [] →
      ((StageChain.tick chain evs drawsF ls).2.2).flag = false) := by
  constructor
  · intro stage evs le eqi ct draws ls
    exact run_single_tick_flag stage evs le eqi ct draws ls
  · intro chain evs drawsF ls h
    unfold StageChain.tick
    exact tickStages_flag _ _ _ chain.stages 0 _ ls h

/-- Witness for C10: a single direct call with `log_events = True` leaves
the flag `True`, while one chain tick over a one-stage chain (starting
from an enabled-logging state) leaves it `False`. -/
theorem logging_flag_side_effect_witness :
    ((run_single_tick
        { name := "ingest", capacity_per_tick := 1, base_latency_ms := 1, jitter_ms := 0,
          queue := [], metrics := {}, slowdown_factor := 1, output_buffer := [] }
        [] true true 0 (fun _ => 0) { flag := true, messages := [] }).2.2).flag = true ∧
    ((StageChain.tick
        { stages := [{ name := "ingest", capacity_per_tick := 1, base_latency_ms := 1,
                       jitter_ms := 0, queue := [], metrics := {}, slowdown_factor := 1,
                       output_buffer := [] }], current_tick := 0 }
        [] (fun _ _ => 0) { flag := true, messages := [] }).2.2).flag = false :=
  ⟨logging_flag_side_effect.1
      { name := "ingest", capacity_per_tick := 1, base_latency_ms := 1, jitter_ms := 0,
        queue := [], metrics := {}, slowdown_factor := 1, output_buffer := [] }
      [] true true 0 (fun _ => 0) { flag := true, messages := [] },
   logging_flag_side_effect.2
      { stages := [{ name := "ingest", capacity_per_tick := 1, base_latency_ms := 1,
                     jitter_ms := 0, queue := [], metrics := {}, slowdown_factor := 1,
                     output_buffer := [] }], current_tick := 0 }
      [] (fun _ _ => 0) { flag := true, messages := [] } (by simp)⟩
